import Mathlib

/-!
Verification of the SyStock transformation and merge engine.

Shallow embedding of the silver-layer transformations
(`etl_pipeline/silver_layer/transformations.py`), the coordinator
(`etl_pipeline/silver_layer/silver_manager.py`) and the warehouse merge
loaders (`etl_pipeline/load/load_entities.py`).

Modelling conventions:
* a datetime instant is an `Int`, counted in minutes since 1970-01-01T00:00;
  a calendar day is an `Int`, counted in days since 1970-01-01
  (one day = 1440 minutes, date of an instant = floor division by 1440);
* numeric (float) measure columns are modelled as `ℚ`; nullable columns as
  `Option _`, with polars' null-propagating arithmetic made explicit;
* a dataframe is a `List` of structure values, one structure per schema;
* a warehouse table is a `List` of rows; the SQL upsert executed by the
  loaders is modelled row by row;
* `DataFrame.unique(subset, keep="last")` is modelled as keeping, for each
  key, the last occurrence, rows staying in input order;
* the ISO-week column (`semana`) of the calendar dimension is not modelled
  (no property concerns it); all other `dim_tempo` columns are.
-/

namespace SyStock

/-! ## Null-propagating arithmetic (polars expression semantics) -/

/-- Null-propagating binary operation on nullable columns. -/
def onull2 (f : ℚ → ℚ → ℚ) : Option ℚ → Option ℚ → Option ℚ
  | some a, some b => some (f a b)
  | _, _ => none

/-- Null-propagating product, as in `pl.col(a) * pl.col(b)`. -/
def omul : Option ℚ → Option ℚ → Option ℚ := onull2 (· * ·)

/-- Null-propagating difference, as in `pl.col(a) - pl.col(b)`. -/
def osub : Option ℚ → Option ℚ → Option ℚ := onull2 (· - ·)

/-- Null-propagating quotient, as in `pl.col(a) / pl.col(b)`. -/
def odiv : Option ℚ → Option ℚ → Option ℚ := onull2 (· / ·)

/-- `pl.coalesce([a, b])`: first non-null of the two columns. -/
def coalesce2 (a b : Option ℚ) : Option ℚ :=
  match a with
  | some x => some x
  | none => b

/-! ## Proleptic-Gregorian calendar (behaviour of `dt.strftime` / `cast(pl.Date)`)

`civilFromDays` is the standard era-based conversion from a day number
(days since 1970-01-01) to a civil `(year, month, day)` triple, the mapping
implemented by the chrono library underneath polars' `strftime`. -/

/-- Convert a day number (days since 1970-01-01) to `(year, month, day)` in
the proleptic Gregorian calendar. -/
def civilFromDays (z : Int) : Int × Int × Int :=
  let days := z + 719468
  let era := days / 146097
  let doe := days % 146097
  let yoe := (doe - doe / 1460 + doe / 36524 - doe / 146096) / 365
  let doy := doe - (365 * yoe + yoe / 4 - yoe / 100)
  let mp := (5 * doy + 2) / 153
  let d := doy - (153 * mp + 2) / 5 + 1
  let m := if mp < 10 then mp + 3 else mp - 9
  let y := yoe + era * 400 + (if m ≤ 2 then 1 else 0)
  (y, m, d)

/-- A date formatted as the 8-digit integer YYYYMMDD
(`dt.strftime("%Y%m%d").cast(pl.Int32)`), as a function of the day number. -/
def yyyymmddOfDay (z : Int) : Int :=
  let c := civilFromDays z
  c.1 * 10000 + c.2.1 * 100 + c.2.2

/-! Auxiliary `Nat` forms of the stages of `civilFromDays`, on the
day-of-era `doe ∈ [0, 146096]` within one 400-year era. They drive the
uniqueness proof for the YYYYMMDD surrogate keys. -/

/-- Year-of-era of a day-of-era (the `yoe` stage of `civilFromDays`). -/
def extractN (doe : Nat) : Nat :=
  (doe - doe / 1460 + doe / 36524 - doe / 146096) / 365

/-- First day-of-era of a year-of-era (`365 yoe + yoe/4 − yoe/100`). -/
def startN (yoe : Nat) : Nat := 365 * yoe + yoe / 4 - yoe / 100

/-- Shifted month index of a day-of-year (the `mp` stage, 0 = March). -/
def mpN (doy : Nat) : Nat := (5 * doy + 2) / 153

/-- Day-of-month of a day-of-year (the `d` stage). -/
def dN (doy : Nat) : Nat := doy - (153 * mpN doy + 2) / 5 + 1

/-- Civil month of a day-of-year (the `m` stage). -/
def mN (doy : Nat) : Nat := if mpN doy < 10 then mpN doy + 3 else mpN doy - 9

/-- Year-carry, month and day of a day-of-year, packed as
`carry·10000 + m·100 + d`. -/
def tailN (doy : Nat) : Nat :=
  (if mN doy ≤ 2 then 1 else 0) * 10000 + mN doy * 100 + dN doy

/-- Day-of-year of a day-of-era. -/
def doyN (doe : Nat) : Nat := doe - startN (extractN doe)

/-- YYYYMMDD value of a day-of-era relative to the era's first civil year:
`yyyymmddOfDay z = era·4000000 + innerN doe`. -/
def innerN (doe : Nat) : Nat := extractN doe * 10000 + tailN (doyN doe)

/-- Minutes in one calendar day: the model's instant resolution. -/
def dayMinutes : Int := 1440

/-- Calendar day of an instant (`cast(pl.Date)` on a datetime column). -/
def dayOfInstant (t : Int) : Int := t / dayMinutes

/-- `_add_id_tempo`: surrogate day key of a datetime column, the date of the
instant formatted as YYYYMMDD. -/
def idTempoOfInstant (t : Int) : Int := yyyymmddOfDay (dayOfInstant t)

/-! ## Raw (bronze) schemas — fields accessed by the transformations -/

/-- Bronze `clientes` row (fields read by `transform_clientes`). -/
structure RawCliente where
  id : Int
  name : Option String
  cpf_cnpj : Option String
  email : Option String
  phone : Option String
  address : Option String
deriving DecidableEq

/-- Bronze `lojas` row (fields read by `transform_lojas`). -/
structure RawLoja where
  id : Int
  name : Option String
  address : Option String
deriving DecidableEq

/-- Bronze `produtos` row (the fields read by `transform_vendas` and
`transform_estoque`: id, sale_price, cost_price). -/
structure RawProduto where
  id : Int
  sale_price : Option ℚ
  cost_price : Option ℚ
deriving DecidableEq

/-- One element of a sale's nested `items` list. -/
structure ItemVenda where
  product_id : Int
  quantity : Option ℚ
  unit_price : Option ℚ
  total_price : Option ℚ
deriving DecidableEq

/-- Bronze `vendas` row (fields read by `transform_vendas`). -/
structure RawVenda where
  id : Int
  sale_date : Int
  store_id : Int
  client_id : Int
  items : List ItemVenda
deriving DecidableEq

/-- Bronze `estoque` row (fields read by `transform_estoque`). -/
structure RawEstoque where
  id : Int
  store_id : Int
  product_id : Int
  updated_at : Int
  quantity : Int
deriving DecidableEq

/-! ## Silver dimension schemas -/

/-- Silver `dim_clientes` row, also the `analytics.dim_cliente` warehouse row
(the loader inserts the silver columns positionally; the natural key
`id_cliente` is `id_cliente_api` in the warehouse). -/
structure DimCliente where
  id_cliente : Int
  nome_cliente : Option String
  cpf_cnpj : Option String
  email : Option String
  telefone : Option String
  endereco : Option String
  tipo_cliente : String
  data_carga : Int
deriving DecidableEq

/-- Silver `dim_lojas` row / `analytics.dim_loja` warehouse row. -/
structure DimLoja where
  id_loja : Int
  nome_loja : Option String
  endereco_loja : Option String
  data_carga : Int
deriving DecidableEq

/-- Silver `dim_tempo` row / `analytics.dim_tempo` warehouse row.
`data_completa` is the calendar day as a day number. The ISO-week column
(`semana`) is not modelled. -/
structure DimTempo where
  id_tempo : Int
  data_completa : Int
  ano : Int
  mes : Int
  dia : Int
  trimestre : Int
  dia_semana : Int
  eh_fim_semana : Bool
deriving DecidableEq

/-! ## Silver fact schemas -/

/-- Silver `fact_vendas` row / `analytics.fato_vendas` warehouse row. -/
structure FactVenda where
  id_venda : Int
  id_tempo : Int
  id_loja : Int
  id_cliente : Int
  id_produto : Option Int
  quantidade : Option ℚ
  valor_unitario : Option ℚ
  custo_unitario : Option ℚ
  valor_total : Option ℚ
  custo_total : Option ℚ
  lucro : Option ℚ
  margem_lucro : Option ℚ
  data_carga : Int
deriving DecidableEq

/-- Silver `fact_estoque` row / `analytics.fato_estoque` warehouse row
(`valor_inicial`/`valor_final` load into `valor_estoque_inicial`/`_final`). -/
structure FactEstoque where
  id_estoque : Int
  id_tempo : Int
  id_loja : Int
  id_produto : Int
  quantidade_inicial : Int
  quantidade_final : Int
  valor_inicial : Option ℚ
  valor_final : Option ℚ
  entrada : Int
  saida : Int
  data_carga : Int
deriving DecidableEq

/-- Silver `fact_distribuicoes` row / `analytics.fato_distribuicoes`
warehouse row (header columns nullable: the line-to-header join is a left
join). -/
structure FactDistribuicao where
  id_distribuicao : Int
  id_loja_origem : Option Int
  id_loja_destino : Option Int
  id_tempo : Option Int
  id_produto : Int
  quantidade : Option ℚ
  status : Option String
  data_carga : Int
deriving DecidableEq

/-! ## Dimension transformations (`DimensionTransformer`) -/

/-- The `tipo_cliente` classification expression of `transform_clientes`:
a `when/then/otherwise` chain on `cpf_cnpj.str.len_chars()`. A null
document makes both conditions null, falling through to the otherwise
branch. -/
def tipo_cliente_of (doc : Option String) : String :=
  match doc with
  | some s =>
    if s.length = 11 then "Pessoa Física"
    else if s.length = 14 then "Pessoa Jurídica"
    else "Não Classificado"
  | none => "Não Classificado"

/-- `DataFrame.unique(subset, keep="last")`: keep, for each key, the last
occurrence, in input order. -/
def unique_keep_last {α κ : Type} [DecidableEq κ] (key : α → κ) : List α → List α
  | [] => []
  | x :: xs =>
    if xs.any (fun y => decide (key y = key x)) then unique_keep_last key xs
    else x :: unique_keep_last key xs

/-- Column selection of `transform_clientes` for one raw client: rename,
classify `tipo_cliente`, stamp `data_carga := now`. -/
def build_dim_cliente (now : Int) (r : RawCliente) : DimCliente :=
  { id_cliente := r.id
    nome_cliente := r.name
    cpf_cnpj := r.cpf_cnpj
    email := r.email
    telefone := r.phone
    endereco := r.address
    tipo_cliente := tipo_cliente_of r.cpf_cnpj
    data_carga := now }

/-- `DimensionTransformer.transform_clientes`: rename columns, classify
`tipo_cliente`, stamp `data_carga := now`, deduplicate by
`(id_cliente, cpf_cnpj)` keeping the last occurrence. -/
def transform_clientes (rows : List RawCliente) (now : Int) : List DimCliente :=
  unique_keep_last (fun c => (c.id_cliente, c.cpf_cnpj))
    (rows.map (build_dim_cliente now))

/-- Column selection of `transform_lojas` for one raw store. -/
def build_dim_loja (now : Int) (r : RawLoja) : DimLoja :=
  { id_loja := r.id
    nome_loja := r.name
    endereco_loja := r.address
    data_carga := now }

/-- `DimensionTransformer.transform_lojas`: rename columns, stamp
`data_carga := now`, deduplicate by `id_loja` keeping the last occurrence. -/
def transform_lojas (rows : List RawLoja) (now : Int) : List DimLoja :=
  unique_keep_last (fun l => l.id_loja) (rows.map (build_dim_loja now))

/-- One row of the synthetic calendar dimension for a given day number.
`dia_semana` is polars' `dt.weekday()` (Monday = 1 … Sunday = 7);
1970-01-01 (day 0) is a Thursday. -/
def mkDimTempo (day : Int) : DimTempo :=
  let c := civilFromDays day
  { id_tempo := yyyymmddOfDay day
    data_completa := day
    ano := c.1
    mes := c.2.1
    dia := c.2.2
    trimestre := (c.2.1 - 1) / 3 + 1
    dia_semana := (day % 7 + 3) % 7 + 1
    eh_fim_semana := decide (5 ≤ (day % 7 + 3) % 7 + 1) }

/-- `pl.datetime_range(start, end, interval="1d", eager=True)`: the instants
`start, start + 1 day, …` while not exceeding `stop`, in closed form (the
generator loop's unfolding law is proved as `datetime_range_step`). -/
def datetime_range (start stop : Int) : List Int :=
  if start ≤ stop then
    (List.range (((stop - start) / dayMinutes).toNat + 1)).map
      (fun k : Nat => start + dayMinutes * (k : Int))
  else []

/-- `DimensionTransformer.transform_tempo`, as a function of the scanned
global date range `[min_date, max_date]` returned by
`_get_global_date_range`: one calendar row per generated instant. -/
def transform_tempo (min_date max_date : Int) : List DimTempo :=
  (datetime_range min_date max_date).map (fun t => mkDimTempo (dayOfInstant t))

/-! ## Fact transformations (`FactTransformer`) -/

/-- Intermediate row of `transform_vendas` after exploding `items` and
extracting the item struct fields. Note the source maps the item's
`total_price` field into the `custo_unitario` column. -/
structure VendaItemRow where
  id_venda : Int
  sale_date : Int
  id_loja : Int
  id_cliente : Int
  id_produto : Option Int
  quantidade : Option ℚ
  valor_unitario : Option ℚ
  custo_unitario : Option ℚ
deriving DecidableEq

/-- `explode("items")` on one sale: one row per item; an empty nested list
explodes to a single row whose item (hence every extracted field) is null. -/
def explode_venda (v : RawVenda) : List VendaItemRow :=
  ((match v.items with
    | [] => [none]
    | its => its.map some : List (Option ItemVenda))).map (fun it =>
      { id_venda := v.id
        sale_date := v.sale_date
        id_loja := v.store_id
        id_cliente := v.client_id
        id_produto := it.map (fun i => i.product_id)
        quantidade := it.bind (fun i => i.quantity)
        valor_unitario := it.bind (fun i => i.unit_price)
        custo_unitario := it.bind (fun i => i.total_price) })

/-- Left join of one exploded sale line against the product table on
`id_produto` (null keys match nothing), coalescing the item's price/cost
with the product's `sale_price`/`cost_price`, item values taking
precedence. A line with several matching products yields one row per match,
one with no match keeps its columns. -/
def join_produto_vendas (r : VendaItemRow) (ps : List RawProduto) : List VendaItemRow :=
  match ps.filter (fun p => r.id_produto == some p.id) with
  | [] => [r]
  | ms => ms.map (fun p =>
      { r with
        valor_unitario := coalesce2 r.valor_unitario p.sale_price
        custo_unitario := coalesce2 r.custo_unitario p.cost_price })

/-- `FactTransformer.transform_vendas`: explode line items, fill prices from
the product table when the item lacks them, derive the financial metrics,
attach the surrogate day key and the load timestamp `now`. -/
def transform_vendas (vendas : List RawVenda) (produtos : Option (List RawProduto))
    (now : Int) : List FactVenda :=
  let exploded := vendas.flatMap explode_venda
  let joined :=
    match produtos with
    | none => exploded
    | some ps => exploded.flatMap (fun r => join_produto_vendas r ps)
  joined.map (fun r =>
    let vt := omul r.quantidade r.valor_unitario
    let ct := omul r.quantidade r.custo_unitario
    { id_venda := r.id_venda
      id_tempo := idTempoOfInstant r.sale_date
      id_loja := r.id_loja
      id_cliente := r.id_cliente
      id_produto := r.id_produto
      quantidade := r.quantidade
      valor_unitario := r.valor_unitario
      custo_unitario := r.custo_unitario
      valor_total := vt
      custo_total := ct
      lucro := osub vt ct
      margem_lucro :=
        match vt with
        | some v => if 0 < v then odiv (osub vt ct) vt else none
        | none => none
      data_carga := now })

/-- The (store, product) partition key of an inventory reading. -/
def estoque_key (r : RawEstoque) : Int × Int := (r.store_id, r.product_id)

/-- First binding of a key in an association list (most recent, since new
bindings are consed at the front). -/
def lookup_key : List ((Int × Int) × Int) → (Int × Int) → Option Int
  | [], _ => none
  | (k, q) :: rest, key => if k = key then some q else lookup_key rest key

/-- `shift(1).over(["id_loja", "id_produto"])` on the quantity column:
pair each reading with the quantity of the previous reading of the same
(store, product) partition in frame order (null for the partition's first
row). The frame is NOT sorted by update time first. -/
def shift_over (seen : List ((Int × Int) × Int)) :
    List RawEstoque → List (RawEstoque × Option Int)
  | [] => []
  | r :: rs =>
    (r, lookup_key seen (estoque_key r)) ::
      shift_over ((estoque_key r, r.quantity) :: seen) rs

/-- Left join of a shifted inventory reading against the product table on
`id_produto`, extracting `cost_price`. -/
def join_produto_estoque (p : RawEstoque × Option Int) (ps : List RawProduto) :
    List ((RawEstoque × Option Int) × Option ℚ) :=
  match ps.filter (fun q => q.id == p.1.product_id) with
  | [] => [(p, none)]
  | ms => ms.map (fun q => (p, q.cost_price))

/-- Assemble one `fact_estoque` row from a shifted reading and a joined unit
cost. `delta` is computed before the null-fill of `quantidade_inicial`, so a
partition's first row has a null delta and hence zero `entrada`/`saida`. -/
def estoque_row (r : RawEstoque) (prev : Option Int) (cost : Option ℚ)
    (now : Int) : FactEstoque :=
  let inicial := prev.getD 0
  let delta : Option Int := prev.map (fun q0 => r.quantity - q0)
  { id_estoque := r.id
    id_tempo := idTempoOfInstant r.updated_at
    id_loja := r.store_id
    id_produto := r.product_id
    quantidade_inicial := inicial
    quantidade_final := r.quantity
    valor_inicial := cost.map (fun c => inicial * c)
    valor_final := cost.map (fun c => r.quantity * c)
    entrada := match delta with | some d => if 0 < d then d else 0 | none => 0
    saida := match delta with | some d => if d < 0 then -d else 0 | none => 0
    data_carga := now }

/-- `FactTransformer.transform_estoque`: window the quantity column by
(store, product) in frame order, derive initial/final quantities and
entries/exits, join the product's cost (literal 0.0 when the product table
is absent), attach surrogate day key and load timestamp. -/
def transform_estoque (rows : List RawEstoque) (produtos : Option (List RawProduto))
    (now : Int) : List FactEstoque :=
  let shifted := shift_over [] rows
  let withCost :=
    match produtos with
    | some ps => shifted.flatMap (fun p => join_produto_estoque p ps)
    | none => shifted.map (fun p => (p, some (0 : ℚ)))
  withCost.map (fun pc => estoque_row pc.1.1 pc.1.2 pc.2 now)

/-! ## Coordinator (`SilverLayerManager`) -/

/-- `SilverLayerManager.DIMENSIONS`: dimension entity names and outputs. -/
def DIMENSIONS : List (String × String) :=
  [("clientes", "dim_clientes"), ("produtos", "dim_produtos"),
   ("lojas", "dim_lojas"), ("tempo", "dim_tempo")]

/-- `SilverLayerManager.FACTS`: fact entity names and outputs. -/
def FACTS : List (String × String) :=
  [("vendas", "fact_vendas"), ("estoque", "fact_estoque"),
   ("distribuicoes", "fact_distribuicoes")]

/-- `SilverLayerManager.transform_all`: run every dimension builder then
every fact builder; a builder is a fallible computation returning its row
count, and a failure is caught and recorded as 0 without stopping the loop.
The builder behaviour is abstracted as `build`. -/
def transform_all (build : String → Except String Nat) : List (String × Nat) :=
  (DIMENSIONS.map Prod.fst).map (fun name =>
    (name, match build name with | .ok n => n | .error _ => 0)) ++
  (FACTS.map Prod.fst).map (fun name =>
    (name, match build name with | .ok n => n | .error _ => 0))

/-! ## Warehouse merge loaders (`load_entities.py`)

Each loader issues `INSERT … VALUES … ON CONFLICT(key) DO UPDATE SET …`
(facts additionally guarded by
`WHERE stored.data_carga < EXCLUDED.data_carga`), executed row by row
against a table modelled as a list of rows. -/

/-- Generic `INSERT … ON CONFLICT(key) DO UPDATE SET … WHERE
stored.data_carga < EXCLUDED.data_carga` for one incoming row: insert when
the key is absent, otherwise update the conflicting stored row only when
the incoming load timestamp is strictly newer. -/
def upsert_guarded {α : Type} (key : α → Int) (carga : α → Int) (upd : α → α → α)
    (w : List α) (r : α) : List α :=
  if w.any (fun old => decide (key old = key r)) then
    w.map (fun old =>
      if key old = key r then
        (if carga old < carga r then upd old r else old)
      else old)
  else w ++ [r]

/-- Generic unguarded `INSERT … ON CONFLICT(key) DO UPDATE SET …` for one
incoming row: insert when the key is absent, otherwise update the
conflicting stored row unconditionally. -/
def upsert_overwrite {α : Type} (key : α → Int) (upd : α → α → α)
    (w : List α) (r : α) : List α :=
  if w.any (fun old => decide (key old = key r)) then
    w.map (fun old => if key old = key r then upd old r else old)
  else w ++ [r]

/-- `DO UPDATE SET` list of `load_fact_vendas`: every non-key column,
including `data_carga`. -/
def update_fato_vendas (old new : FactVenda) : FactVenda :=
  { old with
    id_tempo := new.id_tempo
    id_loja := new.id_loja
    id_cliente := new.id_cliente
    id_produto := new.id_produto
    quantidade := new.quantidade
    valor_unitario := new.valor_unitario
    custo_unitario := new.custo_unitario
    valor_total := new.valor_total
    custo_total := new.custo_total
    lucro := new.lucro
    margem_lucro := new.margem_lucro
    data_carga := new.data_carga }

/-- `LoadFacts.load_fact_vendas`, one row: upsert on `id_venda_api`, guarded
by `fato_vendas.data_carga < EXCLUDED.data_carga`. -/
def merge_fato_vendas (w : List FactVenda) (r : FactVenda) : List FactVenda :=
  upsert_guarded (fun x => x.id_venda) (fun x => x.data_carga) update_fato_vendas w r

/-- `DO UPDATE SET` list of `load_fact_estoque`: every non-key column,
including `data_carga`. -/
def update_fato_estoque (old new : FactEstoque) : FactEstoque :=
  { old with
    id_tempo := new.id_tempo
    id_loja := new.id_loja
    id_produto := new.id_produto
    quantidade_inicial := new.quantidade_inicial
    quantidade_final := new.quantidade_final
    valor_inicial := new.valor_inicial
    valor_final := new.valor_final
    entrada := new.entrada
    saida := new.saida
    data_carga := new.data_carga }

/-- `LoadFacts.load_fact_estoque`, one row: upsert on `id_estoque_api`,
guarded by `fato_estoque.data_carga < EXCLUDED.data_carga`. -/
def merge_fato_estoque (w : List FactEstoque) (r : FactEstoque) : List FactEstoque :=
  upsert_guarded (fun x => x.id_estoque) (fun x => x.data_carga) update_fato_estoque w r

/-- `DO UPDATE SET` list of `load_fact_distribuicao`: every non-key column,
including `data_carga`. -/
def update_fato_distribuicoes (old new : FactDistribuicao) : FactDistribuicao :=
  { old with
    id_loja_origem := new.id_loja_origem
    id_loja_destino := new.id_loja_destino
    id_tempo := new.id_tempo
    id_produto := new.id_produto
    quantidade := new.quantidade
    status := new.status
    data_carga := new.data_carga }

/-- `LoadFacts.load_fact_distribuicao`, one row: upsert on
`id_distribuicao_api`, guarded by
`fato_distribuicoes.data_carga < EXCLUDED.data_carga`. -/
def merge_fato_distribuicoes (w : List FactDistribuicao) (r : FactDistribuicao) :
    List FactDistribuicao :=
  upsert_guarded (fun x => x.id_distribuicao) (fun x => x.data_carga)
    update_fato_distribuicoes w r

/-- `DO UPDATE SET` list of `load_dim_clientes`: `nome_cliente`, `email`,
`telefone`, `endereco`, `tipo_cliente`, `data_carga` — and NOT `cpf_cnpj`,
which keeps its stored value. -/
def update_dim_cliente (old new : DimCliente) : DimCliente :=
  { old with
    nome_cliente := new.nome_cliente
    email := new.email
    telefone := new.telefone
    endereco := new.endereco
    tipo_cliente := new.tipo_cliente
    data_carga := new.data_carga }

/-- `LoadDimension.load_dim_clientes`, one row: upsert on `id_cliente_api`
with NO load-timestamp guard — the update applies on every key conflict. -/
def merge_dim_cliente (w : List DimCliente) (r : DimCliente) : List DimCliente :=
  upsert_overwrite (fun x => x.id_cliente) update_dim_cliente w r

/-- `DO UPDATE SET` list of `load_dim_lojas`: `nome_loja`, `endereco_loja`,
`data_carga`. -/
def update_dim_loja (old new : DimLoja) : DimLoja :=
  { old with
    nome_loja := new.nome_loja
    endereco_loja := new.endereco_loja
    data_carga := new.data_carga }

/-- `LoadDimension.load_dim_lojas`, one row: upsert on `id_loja_api` with NO
load-timestamp guard — the update applies on every key conflict. -/
def merge_dim_loja (w : List DimLoja) (r : DimLoja) : List DimLoja :=
  upsert_overwrite (fun x => x.id_loja) update_dim_loja w r

/-- `LoadDimension.load_dim_tempo`, one row: a plain `INSERT` with no
`ON CONFLICT` clause.

Modelled from the spec: the warehouse DDL is not in the repository; the
spec names `id_tempo` as `dim_tempo`'s natural key (§6), so inserting a row
whose `id_tempo` is already stored violates the key constraint and the
statement fails instead of updating. -/
def insert_dim_tempo (w : List DimTempo) (r : DimTempo) :
    Except String (List DimTempo) :=
  if w.any (fun old => decide (old.id_tempo = r.id_tempo)) then
    .error "duplicate key value violates unique constraint dim_tempo_pkey"
  else
    .ok (w ++ [r])

/-! ## Spec-side and example definitions used by the theorems -/

/-- Example sales fact rows for the C1 witness: same key, different
timestamps and measures. -/
def exVenda1 : FactVenda :=
  { id_venda := 7, id_tempo := 20230101, id_loja := 1, id_cliente := 2
    id_produto := some 3, quantidade := some 3, valor_unitario := some 10
    custo_unitario := some 6, valor_total := some 30, custo_total := some 18
    lucro := some 12, margem_lucro := some (2/5), data_carga := 100 }

def exVenda0 : FactVenda :=
  { exVenda1 with quantidade := some 4, valor_total := some 40, data_carga := 50 }

def exVenda2 : FactVenda :=
  { exVenda1 with quantidade := some 5, valor_total := some 50, data_carga := 200 }

/-- Example client dimension rows: same key; the incoming row has an OLDER
load timestamp and a different name. -/
def exCliente1 : DimCliente :=
  { id_cliente := 1, nome_cliente := some "a", cpf_cnpj := some "12345678901"
    email := none, telefone := none, endereco := none
    tipo_cliente := "Pessoa Física", data_carga := 5 }

def exCliente0 : DimCliente :=
  { exCliente1 with nome_cliente := some "b", data_carga := 3 }

def exLoja1 : DimLoja :=
  { id_loja := 1, nome_loja := some "a", endereco_loja := none, data_carga := 5 }

def exLoja0 : DimLoja :=
  { exLoja1 with nome_loja := some "b", data_carga := 3 }

/-- Incoming client row carrying a DIFFERENT document than the stored one. -/
def exClienteDoc : DimCliente :=
  { exCliente1 with
    cpf_cnpj := some "98765432109"
    nome_cliente := some "c"
    data_carga := 9 }

/-- Example client with an 11-character document. -/
def exRawCliente : RawCliente :=
  { id := 1, name := some "a", cpf_cnpj := some "12345678901"
    email := none, phone := none, address := none }

/-- The dimension row `transform_clientes` produces for `exRawCliente`. -/
def exDimCliente : DimCliente :=
  { id_cliente := 1, nome_cliente := some "a", cpf_cnpj := some "12345678901"
    email := none, telefone := none, endereco := none
    tipo_cliente := "Pessoa Física", data_carga := 0 }

/-- Example builder behaviour: the `vendas` builder fails, all others
return 3 rows. -/
def exBuild : String → Except String Nat :=
  fun name => if name = "vendas" then .error "boom" else .ok 3

/-- All columns of a `dim_clientes` row except the load timestamp. -/
def cliente_sans_carga (c : DimCliente) :
    Int × Option String × Option String × Option String × Option String ×
      Option String × String :=
  (c.id_cliente, c.nome_cliente, c.cpf_cnpj, c.email, c.telefone, c.endereco,
    c.tipo_cliente)

/-- All columns of a `dim_lojas` row except the load timestamp. -/
def loja_sans_carga (l : DimLoja) : Int × Option String × Option String :=
  (l.id_loja, l.nome_loja, l.endereco_loja)

/-- Example raw sale: one line item with quantity 3, unit price 10.0 and
cost 6.0. -/
def exRawVenda : RawVenda :=
  { id := 1, sale_date := 0, store_id := 1, client_id := 2
    items := [{ product_id := 3, quantity := some 3, unit_price := some 10
                total_price := some 6 }] }

/-- The fact row `transform_vendas` produces for `exRawVenda`. -/
def exFactVenda : FactVenda :=
  { id_venda := 1, id_tempo := 19700101, id_loja := 1, id_cliente := 2
    id_produto := some 3, quantidade := some 3, valor_unitario := some 10
    custo_unitario := some 6, valor_total := some 30, custo_total := some 18
    lucro := some 12, margem_lucro := some (2/5), data_carga := 0 }

/-- The four quantity metrics of an inventory fact row. -/
def estoque_quantities (f : FactEstoque) : Int × Int × Int × Int :=
  (f.quantidade_inicial, f.quantidade_final, f.entrada, f.saida)

/-- The quantity metrics `transform_estoque` derives from one shifted
reading, before the cost join. -/
def estoque_metrics (p : RawEstoque × Option Int) : Int × Int × Int × Int :=
  match p.2 with
  | none => (0, p.1.quantity, 0, 0)
  | some q0 =>
    (q0, p.1.quantity,
      if 0 < p.1.quantity - q0 then p.1.quantity - q0 else 0,
      if p.1.quantity - q0 < 0 then -(p.1.quantity - q0) else 0)

/-- Sequential per-partition recurrence for the inventory metrics: each
reading's initial quantity is the previous reading's quantity (0 and no
entries/exits when there is none), entries/exits split the delta. -/
def delta_spec (prev : Option Int) : List Int → List (Int × Int × Int × Int)
  | [] => []
  | q :: qs =>
    (match prev with
      | none => ((0 : Int), q, (0 : Int), (0 : Int))
      | some q0 =>
        (q0, q, if 0 < q - q0 then q - q0 else 0,
          if q - q0 < 0 then -(q - q0) else 0)) :: delta_spec (some q) qs

/-- First matching product's `cost_price`, the value a left join against a
key-unique product table attaches. -/
def cost_join (ps : List RawProduto) (pid : Int) : Option ℚ :=
  match ps.filter (fun q => q.id == pid) with
  | [] => none
  | m :: _ => m.cost_price

/-- The unit cost `transform_estoque` attaches to a reading: the literal 0.0
when the product table is absent, the joined product's `cost_price`
otherwise. -/
def estoque_cost_source (produtos : Option (List RawProduto)) (pid : Int) :
    Option ℚ :=
  match produtos with
  | none => some 0
  | some ps => cost_join ps pid

/-- Example inventory readings: one (store, product) partition whose two
readings arrive in reverse time order — quantity 5 first, then the earlier
reading with quantity 3. -/
def exEstoque1 : RawEstoque :=
  { id := 1, store_id := 10, product_id := 20, updated_at := 144000
    quantity := 5 }

def exEstoque2 : RawEstoque :=
  { id := 2, store_id := 10, product_id := 20, updated_at := 72000
    quantity := 3 }

/-- Scanned range start for the C7 counterexample: 2023-01-01 12:00
(day 19358 since the epoch). -/
def cexTempoMin : Int := 19358 * 1440 + 720

/-- Scanned range end for the C7 counterexample: 2023-01-02 06:00
(day 19359): its time-of-day is earlier than the start's. -/
def cexTempoMax : Int := 19359 * 1440 + 360

/-! ## Generic upsert lemmas -/

theorem upsert_guarded_fresh {α : Type} (key : α → Int) (carga : α → Int)
    (upd : α → α → α) (w : List α) (r : α)
    (hfresh : ∀ old ∈ w, key old ≠ key r) :
    upsert_guarded key carga upd w r = w ++ [r] := by
  unfold upsert_guarded
  rw [if_neg]
  simp only [List.any_eq_true, decide_eq_true_eq, not_exists]
  intro x hx
  exact hfresh x hx.1 hx.2

theorem upsert_guarded_after_fresh {α : Type} (key : α → Int) (carga : α → Int)
    (upd : α → α → α) (w : List α) (r1 r2 : α)
    (hk : key r2 = key r1) (hfresh : ∀ old ∈ w, key old ≠ key r1) :
    (carga r2 ≤ carga r1 →
      upsert_guarded key carga upd (upsert_guarded key carga upd w r1) r2 =
        upsert_guarded key carga upd w r1) ∧
    (carga r1 < carga r2 →
      upsert_guarded key carga upd (upsert_guarded key carga upd w r1) r2 =
        w ++ [upd r1 r2]) := by
  have h1 : upsert_guarded key carga upd w r1 = w ++ [r1] :=
    upsert_guarded_fresh key carga upd w r1 hfresh
  have hany : ((w ++ [r1]).any (fun old => decide (key old = key r2))) = true := by
    simp only [List.any_eq_true, decide_eq_true_eq]
    exact ⟨r1, by simp, hk.symm⟩
  have hmapw : ∀ f : α → α, (∀ old ∈ w, f old = old) → w.map f = w := by
    intro f hf
    conv_rhs => rw [← List.map_id w]
    exact List.map_congr_left hf
  constructor <;> intro hc
  · rw [h1]
    unfold upsert_guarded
    rw [if_pos hany, List.map_append]
    rw [hmapw _ (fun old hold => by
      rw [if_neg]
      rw [hk]
      exact hfresh old hold)]
    simp only [List.map_cons, List.map_nil, if_pos hk.symm]
    rw [if_neg (by omega)]
  · rw [h1]
    unfold upsert_guarded
    rw [if_pos hany, List.map_append]
    rw [hmapw _ (fun old hold => by
      rw [if_neg]
      rw [hk]
      exact hfresh old hold)]
    simp only [List.map_cons, List.map_nil, if_pos hk.symm]
    rw [if_pos hc]

theorem upsert_overwrite_mem {α : Type} (key : α → Int) (upd : α → α → α)
    (w : List α) (r old : α) (hold : old ∈ w) (hk : key old = key r) :
    upd old r ∈ upsert_overwrite key upd w r := by
  unfold upsert_overwrite
  rw [if_pos (by
    simp only [List.any_eq_true, decide_eq_true_eq]
    exact ⟨old, hold, hk⟩)]
  exact List.mem_map.mpr ⟨old, hold, by rw [if_pos hk]⟩

/-! ## C1 — recency guard on the fact tables -/

/-- C1: for each load-timestamp-guarded fact table (fato_vendas,
fato_estoque, fato_distribuicoes), after merging a row with a fresh natural
key and load timestamp T1, merging a conflicting row with the same key and
timestamp T0 ≤ T1 (strictly older or equal) leaves the table unchanged,
while a conflicting row with T2 > T1 replaces the stored row's non-key
columns with the incoming values. -/
theorem merge_facts_recency_guard :
    (∀ (w : List FactVenda) (r1 r2 : FactVenda),
      r2.id_venda = r1.id_venda →
      (∀ old ∈ w, old.id_venda ≠ r1.id_venda) →
      (r2.data_carga ≤ r1.data_carga →
        merge_fato_vendas (merge_fato_vendas w r1) r2 = merge_fato_vendas w r1) ∧
      (r1.data_carga < r2.data_carga →
        merge_fato_vendas (merge_fato_vendas w r1) r2 = w ++ [update_fato_vendas r1 r2])) ∧
    (∀ (w : List FactEstoque) (r1 r2 : FactEstoque),
      r2.id_estoque = r1.id_estoque →
      (∀ old ∈ w, old.id_estoque ≠ r1.id_estoque) →
      (r2.data_carga ≤ r1.data_carga →
        merge_fato_estoque (merge_fato_estoque w r1) r2 = merge_fato_estoque w r1) ∧
      (r1.data_carga < r2.data_carga →
        merge_fato_estoque (merge_fato_estoque w r1) r2 = w ++ [update_fato_estoque r1 r2])) ∧
    (∀ (w : List FactDistribuicao) (r1 r2 : FactDistribuicao),
      r2.id_distribuicao = r1.id_distribuicao →
      (∀ old ∈ w, old.id_distribuicao ≠ r1.id_distribuicao) →
      (r2.data_carga ≤ r1.data_carga →
        merge_fato_distribuicoes (merge_fato_distribuicoes w r1) r2 =
          merge_fato_distribuicoes w r1) ∧
      (r1.data_carga < r2.data_carga →
        merge_fato_distribuicoes (merge_fato_distribuicoes w r1) r2 =
          w ++ [update_fato_distribuicoes r1 r2])) := by
  refine ⟨fun w r1 r2 hk hfresh => ?_, fun w r1 r2 hk hfresh => ?_,
    fun w r1 r2 hk hfresh => ?_⟩ <;>
    exact upsert_guarded_after_fresh _ _ _ w r1 r2 hk hfresh

/-- C1 witness: at a concrete fresh table, an older conflicting sales row is
ignored and a newer one replaces the stored row. -/
theorem merge_facts_recency_guard_witness :
    (merge_fato_vendas (merge_fato_vendas [] exVenda1) exVenda0 =
      merge_fato_vendas [] exVenda1) ∧
    (merge_fato_vendas (merge_fato_vendas [] exVenda1) exVenda2 =
      [update_fato_vendas exVenda1 exVenda2]) := by
  have h := merge_facts_recency_guard.1 [] exVenda1 exVenda0 (by decide)
    (by intro old h; cases h)
  have h2 := merge_facts_recency_guard.1 [] exVenda1 exVenda2 (by decide)
    (by intro old h; cases h)
  exact ⟨h.1 (by decide), h2.2 (by decide)⟩

/-! ## C4 — the dimension upserts have no recency guard -/

/-- C4 counterexample: merging a `dim_cliente` (resp. `dim_loja`) row whose
`data_carga` is strictly older than the stored one does NOT leave the
stored row unchanged — the update is applied regardless of the recency
comparison, contradicting the claim. -/
theorem merge_dims_unguarded_counterexample :
    exCliente0.data_carga < exCliente1.data_carga ∧
    merge_dim_cliente [exCliente1] exCliente0 ≠ [exCliente1] ∧
    merge_dim_cliente [exCliente1] exCliente0 =
      [update_dim_cliente exCliente1 exCliente0] ∧
    exLoja0.data_carga < exLoja1.data_carga ∧
    merge_dim_loja [exLoja1] exLoja0 ≠ [exLoja1] ∧
    merge_dim_loja [exLoja1] exLoja0 = [update_dim_loja exLoja1 exLoja0] := by
  refine ⟨by decide, by decide, by decide, by decide, by decide, by decide⟩

/-- C4 (amended): the "update only when strictly newer" conflict rule holds
only for the fact tables; the `dim_cliente` and `dim_loja` upserts carry no
load-timestamp guard, so on key conflict the stored row's SET columns are
overwritten with the incoming values even when the incoming `data_carga` is
strictly older than the stored one. -/
theorem merge_dims_overwrite_unconditionally :
    (∀ (w : List DimCliente) (r old : DimCliente), old ∈ w →
      old.id_cliente = r.id_cliente → r.data_carga < old.data_carga →
      update_dim_cliente old r ∈ merge_dim_cliente w r ∧
      (update_dim_cliente old r).nome_cliente = r.nome_cliente ∧
      (update_dim_cliente old r).data_carga = r.data_carga) ∧
    (∀ (w : List DimLoja) (r old : DimLoja), old ∈ w →
      old.id_loja = r.id_loja → r.data_carga < old.data_carga →
      update_dim_loja old r ∈ merge_dim_loja w r ∧
      (update_dim_loja old r).nome_loja = r.nome_loja ∧
      (update_dim_loja old r).data_carga = r.data_carga) := by
  constructor
  · intro w r old hold hk _
    exact ⟨upsert_overwrite_mem _ _ w r old hold hk, rfl, rfl⟩
  · intro w r old hold hk _
    exact ⟨upsert_overwrite_mem _ _ w r old hold hk, rfl, rfl⟩

/-- C4 witness: the amended rule at a concrete table. -/
theorem merge_dims_overwrite_unconditionally_witness :
    update_dim_cliente exCliente1 exCliente0 ∈
      merge_dim_cliente [exCliente1] exCliente0 :=
  (merge_dims_overwrite_unconditionally.1 [exCliente1] exCliente0 exCliente1
    (by decide) (by decide) (by decide)).1

/-! ## C10 — the client upsert never touches the stored `cpf_cnpj` -/

/-- C10: when a `dim_cliente` merge hits a key conflict on `id_cliente_api`,
the applied update overwrites `nome_cliente`, `email`, `telefone`,
`endereco`, `tipo_cliente` and `data_carga` with the incoming values but
leaves the stored `cpf_cnpj` (and the key) unchanged, even if the incoming
row carries a different `cpf_cnpj`. -/
theorem merge_dim_cliente_preserves_cpf :
    ∀ (w : List DimCliente) (r old : DimCliente), old ∈ w →
      old.id_cliente = r.id_cliente →
      update_dim_cliente old r ∈ merge_dim_cliente w r ∧
      (update_dim_cliente old r).cpf_cnpj = old.cpf_cnpj ∧
      (update_dim_cliente old r).id_cliente = old.id_cliente ∧
      (update_dim_cliente old r).nome_cliente = r.nome_cliente ∧
      (update_dim_cliente old r).email = r.email ∧
      (update_dim_cliente old r).telefone = r.telefone ∧
      (update_dim_cliente old r).endereco = r.endereco ∧
      (update_dim_cliente old r).tipo_cliente = r.tipo_cliente ∧
      (update_dim_cliente old r).data_carga = r.data_carga := by
  intro w r old hold hk
  exact ⟨upsert_overwrite_mem _ _ w r old hold hk,
    rfl, rfl, rfl, rfl, rfl, rfl, rfl, rfl⟩

/-- C10 witness: at a concrete conflict with a changed incoming document,
the stored `cpf_cnpj` survives the update. -/
theorem merge_dim_cliente_preserves_cpf_witness :
    update_dim_cliente exCliente1 exClienteDoc ∈
      merge_dim_cliente [exCliente1] exClienteDoc ∧
    (update_dim_cliente exCliente1 exClienteDoc).cpf_cnpj = exCliente1.cpf_cnpj := by
  have h := merge_dim_cliente_preserves_cpf [exCliente1] exClienteDoc exCliente1
    (by decide) (by decide)
  exact ⟨h.1, h.2.1⟩

/-! ## C5 — the calendar load is a bare insert -/

/-- C5 counterexample: re-merging an already-stored calendar row does not
overwrite it — the bare `INSERT` raises a key-conflict error, contradicting
the claim that re-loads never fail. -/
theorem insert_dim_tempo_counterexample :
    insert_dim_tempo [] (mkDimTempo 19358) = .ok [mkDimTempo 19358] ∧
    (insert_dim_tempo [mkDimTempo 19358] (mkDimTempo 19358)).isOk = false := by
  exact ⟨rfl, rfl⟩

/-- C5 (amended): `load_dim_tempo` issues a plain `INSERT` with no
`ON CONFLICT` clause, so loading a calendar row whose `id_tempo` is already
stored raises a key-conflict error instead of overwriting; only rows with
fresh keys are inserted (appended). -/
theorem insert_dim_tempo_conflict_fails :
    ∀ (w : List DimTempo) (r : DimTempo),
      ((∃ old ∈ w, old.id_tempo = r.id_tempo) →
        (insert_dim_tempo w r).isOk = false) ∧
      ((∀ old ∈ w, old.id_tempo ≠ r.id_tempo) →
        insert_dim_tempo w r = .ok (w ++ [r])) := by
  intro w r
  constructor
  · intro hdup
    unfold insert_dim_tempo
    rw [if_pos]
    · rfl
    · simp only [List.any_eq_true, decide_eq_true_eq]
      exact hdup
  · intro hfresh
    unfold insert_dim_tempo
    rw [if_neg]
    simp only [List.any_eq_true, decide_eq_true_eq, not_exists]
    intro x hx
    exact hfresh x hx.1 hx.2

/-- C5 witness: the amended behaviour at a concrete table — duplicate key
fails, fresh key appends. -/
theorem insert_dim_tempo_conflict_fails_witness :
    (insert_dim_tempo [mkDimTempo 19400] (mkDimTempo 19400)).isOk = false ∧
    insert_dim_tempo [mkDimTempo 19400] (mkDimTempo 19401) =
      .ok [mkDimTempo 19400, mkDimTempo 19401] := by
  constructor
  · exact (insert_dim_tempo_conflict_fails [mkDimTempo 19400] (mkDimTempo 19400)).1
      ⟨mkDimTempo 19400, by decide, by decide⟩
  · exact (insert_dim_tempo_conflict_fails [mkDimTempo 19400] (mkDimTempo 19401)).2
      (by intro old hold; simp only [List.mem_singleton] at hold; rw [hold]; decide)

/-! ## C6 — client classification law -/

theorem mem_unique_keep_last {α κ : Type} [DecidableEq κ] (key : α → κ)
    (l : List α) (x : α) (hx : x ∈ unique_keep_last key l) : x ∈ l := by
  induction l with
  | nil => exact absurd hx (by simp [unique_keep_last])
  | cons a as ih =>
    unfold unique_keep_last at hx
    by_cases h : as.any (fun y => decide (key y = key a))
    · rw [if_pos h] at hx
      exact List.mem_cons_of_mem a (ih hx)
    · rw [if_neg h] at hx
      rcases List.mem_cons.mp hx with h1 | h1
      · exact h1 ▸ List.mem_cons_self a as
      · exact List.mem_cons_of_mem a (ih h1)

/-- C6: in every row produced by `transform_clientes`, `tipo_cliente` is
determined solely by the character length of the `cpf_cnpj` document:
length 11 gives "Pessoa Física", length 14 gives "Pessoa Jurídica", and any
other length — including a null document — gives "Não Classificado". -/
theorem transform_clientes_tipo :
    ∀ (rows : List RawCliente) (now : Int) (row : DimCliente),
      row ∈ transform_clientes rows now →
      (row.cpf_cnpj.map String.length = some 11 →
        row.tipo_cliente = "Pessoa Física") ∧
      (row.cpf_cnpj.map String.length = some 14 →
        row.tipo_cliente = "Pessoa Jurídica") ∧
      (row.cpf_cnpj.map String.length ≠ some 11 →
        row.cpf_cnpj.map String.length ≠ some 14 →
        row.tipo_cliente = "Não Classificado") := by
  intro rows now row hrow
  have hmem := mem_unique_keep_last _ _ _ hrow
  obtain ⟨r, _, rfl⟩ := List.mem_map.mp hmem
  simp only [build_dim_cliente]
  rcases hdoc : r.cpf_cnpj with _ | s
  · refine ⟨fun h => ?_, fun h => ?_, fun _ _ => ?_⟩
    · exact absurd h (by simp [hdoc])
    · exact absurd h (by simp [hdoc])
    · simp [tipo_cliente_of, hdoc]
  · refine ⟨fun h => ?_, fun h => ?_, fun h11 h14 => ?_⟩
    · simp only [hdoc, Option.map_some', Option.some.injEq] at h
      simp [tipo_cliente_of, hdoc, h]
    · simp only [hdoc, Option.map_some', Option.some.injEq] at h
      simp [tipo_cliente_of, hdoc, h]
    · simp only [hdoc, Option.map_some'] at h11 h14
      have h11' : s.length ≠ 11 := fun hc => h11 (by rw [hc])
      have h14' : s.length ≠ 14 := fun hc => h14 (by rw [hc])
      simp [tipo_cliente_of, hdoc, h11', h14']

/-- C6 witness: the classification at a concrete transformed client. -/
theorem transform_clientes_tipo_witness :
    exDimCliente ∈ transform_clientes [exRawCliente] 0 ∧
    exDimCliente.tipo_cliente = "Pessoa Física" :=
  ⟨by decide,
    (transform_clientes_tipo [exRawCliente] 0 exDimCliente (by decide)).1 (by decide)⟩

/-! ## C9 — coordinator failure isolation -/

/-- C9: `transform_all` returns one entry for every known dimension and
fact, in order; an entity whose builder fails is recorded as 0, the error
does not escape (the result is always a total map), and every other
entity's entry still reflects its own builder outcome. -/
theorem transform_all_isolation :
    ∀ build : String → Except String Nat,
      (transform_all build).map Prod.fst =
        ["clientes", "produtos", "lojas", "tempo",
         "vendas", "estoque", "distribuicoes"] ∧
      (∀ name n, (name, n) ∈ transform_all build →
        (∀ k, build name = .ok k → n = k) ∧
        (∀ e, build name = .error e → n = 0)) ∧
      (∀ name e, build name = .error e →
        name ∈ (transform_all build).map Prod.fst →
        (name, 0) ∈ transform_all build) ∧
      (∀ name k, build name = .ok k →
        name ∈ (transform_all build).map Prod.fst →
        (name, k) ∈ transform_all build) := by
  intro build
  refine ⟨rfl, fun name n hmem => ?_, fun name e hb hname => ?_,
    fun name k hb hname => ?_⟩
  · simp only [transform_all, DIMENSIONS, FACTS, List.map_cons, List.map_nil,
      List.cons_append, List.nil_append, List.mem_cons, List.not_mem_nil,
      or_false, Prod.mk.injEq] at hmem
    rcases hmem with ⟨rfl, rfl⟩ | ⟨rfl, rfl⟩ | ⟨rfl, rfl⟩ | ⟨rfl, rfl⟩ |
      ⟨rfl, rfl⟩ | ⟨rfl, rfl⟩ | ⟨rfl, rfl⟩ <;>
      exact ⟨fun k hk => by rw [hk], fun e he => by rw [he]⟩
  · have h7 : name ∈ ["clientes", "produtos", "lojas", "tempo",
        "vendas", "estoque", "distribuicoes"] := hname
    fin_cases h7 <;>
      simp [transform_all, DIMENSIONS, FACTS, hb]
  · have h7 : name ∈ ["clientes", "produtos", "lojas", "tempo",
        "vendas", "estoque", "distribuicoes"] := hname
    fin_cases h7 <;>
      simp [transform_all, DIMENSIONS, FACTS, hb]

/-- C9 witness: with a failing `vendas` builder, the result still has all
seven entries, `vendas` records 0, and `estoque` still records its own
row count. -/
theorem transform_all_isolation_witness :
    ("vendas", 0) ∈ transform_all exBuild ∧
    ("estoque", 3) ∈ transform_all exBuild := by
  refine ⟨(transform_all_isolation exBuild).2.2.1 "vendas" "boom" rfl ?_,
    (transform_all_isolation exBuild).2.2.2 "estoque" 3 rfl ?_⟩ <;> decide

/-! ## C8 — re-running a dimension build on the same snapshot -/

theorem unique_keep_last_map {α β κ : Type} [DecidableEq κ] (key : β → κ)
    (f : α → β) (g : α → κ) (hg : ∀ a, key (f a) = g a) (l : List α) :
    unique_keep_last key (l.map f) = (unique_keep_last g l).map f := by
  induction l with
  | nil => rfl
  | cons a as ih =>
    simp only [List.map_cons]
    unfold unique_keep_last
    by_cases h : (as.any fun y => decide (g y = g a)) = true
    · have hL : ((as.map f).any fun y => decide (key y = key (f a))) = true := by
        simp only [List.any_eq_true, decide_eq_true_eq, List.mem_map] at h ⊢
        obtain ⟨y, hy, hkey⟩ := h
        exact ⟨f y, ⟨y, hy, rfl⟩, by rw [hg y, hg a]; exact hkey⟩
      rw [if_pos hL, if_pos h, ih]
    · have hL : ¬(((as.map f).any fun y => decide (key y = key (f a))) = true) := by
        simp only [List.any_eq_true, decide_eq_true_eq, List.mem_map,
          not_exists] at h ⊢
        intro z hz
        obtain ⟨⟨y, hy, rfl⟩, hkey⟩ := hz
        exact h y ⟨hy, by rw [← hg y, hkey, hg a]⟩
      rw [if_neg hL, if_neg h, List.map_cons, ih]

/-- C8 counterexample: the two runs of a dimension builder stamp
`data_carga` with their own clock reading (`datetime.now()`), so over the
same bronze input two runs at different instants do NOT produce
byte-identical tables — the claim as stated fails. -/
theorem transform_dims_rerun_counterexample :
    transform_clientes [exRawCliente] 0 ≠ transform_clientes [exRawCliente] 1 := by
  decide

/-- C8 (amended): a dimension build is a deterministic function of the
bronze snapshot and of the load instant: two runs over the same snapshot
agree row for row on every column except `data_carga` (same row count, same
keys, same values), are fully identical when the clock reads the same
instant, and differ at most in the `data_carga` column otherwise. -/
theorem transform_dims_deterministic_sans_carga :
    ∀ (cs : List RawCliente) (ls : List RawLoja) (t1 t2 : Int),
      (transform_clientes cs t1).map cliente_sans_carga =
        (transform_clientes cs t2).map cliente_sans_carga ∧
      (transform_clientes cs t1).length = (transform_clientes cs t2).length ∧
      (t1 = t2 → transform_clientes cs t1 = transform_clientes cs t2) ∧
      (transform_lojas ls t1).map loja_sans_carga =
        (transform_lojas ls t2).map loja_sans_carga ∧
      (transform_lojas ls t1).length = (transform_lojas ls t2).length ∧
      (t1 = t2 → transform_lojas ls t1 = transform_lojas ls t2) := by
  intro cs ls t1 t2
  have hc : ∀ t : Int, transform_clientes cs t =
      (unique_keep_last (fun r : RawCliente => (r.id, r.cpf_cnpj)) cs).map
        (build_dim_cliente t) := by
    intro t
    exact unique_keep_last_map _ _ _ (fun a => rfl) cs
  have hl : ∀ t : Int, transform_lojas ls t =
      (unique_keep_last (fun r : RawLoja => r.id) ls).map (build_dim_loja t) := by
    intro t
    exact unique_keep_last_map _ _ _ (fun a => rfl) ls
  refine ⟨?_, ?_, fun h => by rw [h], ?_, ?_, fun h => by rw [h]⟩
  · rw [hc t1, hc t2, List.map_map, List.map_map]
    exact List.map_congr_left (fun a _ => rfl)
  · rw [hc t1, hc t2, List.length_map, List.length_map]
  · rw [hl t1, hl t2, List.map_map, List.map_map]
    exact List.map_congr_left (fun a _ => rfl)
  · rw [hl t1, hl t2, List.length_map, List.length_map]

/-- C8 witness: the amended determinism at a concrete snapshot and two
distinct load instants. -/
theorem transform_dims_deterministic_sans_carga_witness :
    (transform_clientes [exRawCliente] 0).map cliente_sans_carga =
      (transform_clientes [exRawCliente] 1).map cliente_sans_carga ∧
    transform_clientes [exRawCliente] 0 = transform_clientes [exRawCliente] 0 :=
  ⟨(transform_dims_deterministic_sans_carga [exRawCliente] [] 0 1).1,
    (transform_dims_deterministic_sans_carga [exRawCliente] [] 0 0).2.2.1 rfl⟩

/-! ## C3 — financial metrics of exploded sale lines -/

/-- C3: every exploded sale line whose (coalesced) quantity, unit price and
unit cost are non-null satisfies `total_value = q·p`, `total_cost = q·c`,
`profit = total_value − total_cost`, and
`margin = profit / total_value` when `total_value > 0`, null otherwise. -/
theorem transform_vendas_financials :
    ∀ (vendas : List RawVenda) (produtos : Option (List RawProduto)) (now : Int)
      (row : FactVenda), row ∈ transform_vendas vendas produtos now →
      ∀ q p c : ℚ, row.quantidade = some q → row.valor_unitario = some p →
        row.custo_unitario = some c →
        row.valor_total = some (q * p) ∧
        row.custo_total = some (q * c) ∧
        row.lucro = some (q * p - q * c) ∧
        row.margem_lucro =
          (if 0 < q * p then some ((q * p - q * c) / (q * p)) else none) := by
  intro vendas produtos now row hrow q p c hq hp hc
  obtain ⟨r, -, rfl⟩ := List.mem_map.mp hrow
  dsimp only at hq hp hc ⊢
  simp only [hq, hp, hc, omul, osub, odiv, onull2]
  trivial

/-- C3 witness: quantity 3, unit price 10.0, unit cost 6.0 gives
total_value 30.0, total_cost 18.0, profit 12.0 and margin 0.4. -/
theorem transform_vendas_financials_witness :
    exFactVenda ∈ transform_vendas [exRawVenda] none 0 ∧
    exFactVenda.valor_total = some 30 ∧
    exFactVenda.custo_total = some 18 ∧
    exFactVenda.lucro = some 12 ∧
    exFactVenda.margem_lucro = some (2/5) := by
  have hid : idTempoOfInstant 0 = 19700101 := by decide
  have hmem : transform_vendas [exRawVenda] none 0 = [exFactVenda] := by
    simp only [transform_vendas, explode_venda, omul, osub, odiv, onull2, hid,
      exRawVenda, exFactVenda, List.flatMap_cons, List.flatMap_nil,
      List.map_cons, List.map_nil, List.append_nil, List.cons.injEq,
      FactVenda.mk.injEq]
    norm_num
  have h := transform_vendas_financials [exRawVenda] none 0 exFactVenda
    (by rw [hmem]; exact List.mem_singleton_self _) 3 10 6 rfl rfl rfl
  refine ⟨by rw [hmem]; exact List.mem_singleton_self _,
    h.1.trans (by norm_num), h.2.1.trans (by norm_num),
    h.2.2.1.trans (by norm_num), h.2.2.2.trans (by norm_num)⟩

/-! ## C2 — inventory delta conservation -/

theorem lookup_key_cons (k : Int × Int) (q : Int)
    (rest : List ((Int × Int) × Int)) (key : Int × Int) :
    lookup_key ((k, q) :: rest) key =
      if k = key then some q else lookup_key rest key := rfl

theorem shift_over_filter (key : Int × Int) (rows : List RawEstoque)
    (seen : List ((Int × Int) × Int)) :
    ((shift_over seen rows).filter
        (fun p => decide (estoque_key p.1 = key))).map estoque_metrics =
      delta_spec (lookup_key seen key)
        ((rows.filter (fun r => decide (estoque_key r = key))).map
          (fun r => r.quantity)) := by
  induction rows generalizing seen with
  | nil => rfl
  | cons r rs ih =>
    simp only [shift_over]
    by_cases h : estoque_key r = key
    · subst h
      simp only [List.filter_cons, decide_eq_true_eq, if_true, List.map_cons]
      simp only [delta_spec]
      rw [ih ((estoque_key r, r.quantity) :: seen), lookup_key_cons, if_pos rfl]
      cases hL : lookup_key seen (estoque_key r) <;>
        simp [estoque_metrics, hL]
    · simp only [List.filter_cons, decide_eq_true_eq]
      rw [if_neg h, if_neg h, ih ((estoque_key r, r.quantity) :: seen),
        lookup_key_cons, if_neg h]

theorem filter_produto_nodup (ps : List RawProduto) (pid : Int)
    (h : (ps.map (fun p => p.id)).Nodup) :
    ps.filter (fun q => q.id == pid) = [] ∨
      ∃ m, ps.filter (fun q => q.id == pid) = [m] := by
  induction ps with
  | nil => exact Or.inl rfl
  | cons a as ih =>
    rw [List.map_cons, List.nodup_cons] at h
    by_cases hid : a.id = pid
    · refine Or.inr ⟨a, ?_⟩
      have hrest : as.filter (fun q => q.id == pid) = [] := by
        rw [List.filter_eq_nil_iff]
        intro q hq hbeq
        exact h.1 (List.mem_map.mpr ⟨q, hq, by
          rw [beq_iff_eq] at hbeq
          rw [hbeq, hid]⟩)
      rw [List.filter_cons, if_pos (by simp [hid]), hrest]
    · rw [List.filter_cons, if_neg (by simp [hid])]
      exact ih h.2

theorem join_produto_estoque_nodup (ps : List RawProduto)
    (h : (ps.map (fun p => p.id)).Nodup) (p : RawEstoque × Option Int) :
    join_produto_estoque p ps = [(p, cost_join ps p.1.product_id)] := by
  unfold join_produto_estoque cost_join
  rcases filter_produto_nodup ps p.1.product_id h with hf | ⟨m, hf⟩ <;>
    simp [hf]

/-- Under a key-unique (or absent) product table, `transform_estoque` is the
per-row assembly of the shifted readings with their joined cost. -/
theorem transform_estoque_eq_map (rows : List RawEstoque)
    (produtos : Option (List RawProduto)) (now : Int)
    (hp : ∀ ps, produtos = some ps → (ps.map (fun p => p.id)).Nodup) :
    transform_estoque rows produtos now =
      (shift_over [] rows).map (fun p =>
        estoque_row p.1 p.2 (estoque_cost_source produtos p.1.product_id) now) := by
  rcases produtos with _ | ps
  · unfold transform_estoque
    dsimp only
    rw [List.map_map]
    rfl
  · have hps := hp ps rfl
    have hflat : (shift_over [] rows).flatMap (fun p => join_produto_estoque p ps) =
        (shift_over [] rows).map (fun p => (p, cost_join ps p.1.product_id)) := by
      induction shift_over [] rows with
      | nil => rfl
      | cons x xs ihx =>
        rw [List.flatMap_cons, List.map_cons, join_produto_estoque_nodup ps hps x,
          ihx, List.singleton_append]
    unfold transform_estoque
    dsimp only
    rw [hflat, List.map_map]
    rfl

theorem filter_map_map_congr {α β γ : Type} (g : α → β) (p : β → Bool)
    (m : β → γ) (p' : α → Bool) (m' : α → γ) (l : List α)
    (hp : ∀ a, p (g a) = p' a) (hm : ∀ a, m (g a) = m' a) :
    ((l.map g).filter p).map m = (l.filter p').map m' := by
  induction l with
  | nil => rfl
  | cons a as ih =>
    simp only [List.map_cons, List.filter_cons]
    rw [hp a]
    by_cases h : p' a = true
    · rw [if_pos h, if_pos h, List.map_cons, hm a, ih, List.map_cons]
    · rw [if_neg h, if_neg h, ih]

theorem transform_estoque_counterexample :
    (transform_estoque [exEstoque1, exEstoque2] none 0).map estoque_quantities =
      [(0, 5, 0, 0), (5, 3, 0, 2)] ∧
    ¬(∀ f ∈ transform_estoque [exEstoque1, exEstoque2] none 0,
        f.quantidade_final - f.quantidade_inicial = f.entrada - f.saida) ∧
    exEstoque2.updated_at < exEstoque1.updated_at := by
  refine ⟨by decide, by decide, by decide⟩

/-- C2 (amended): `transform_estoque` computes its window in frame (input)
order, not update-time order. Within each (store, product) partition, taken
in frame order: the first row has initial quantity 0, a null delta and
hence zero entries and exits (so `final − initial = entries − exits` fails
whenever its quantity is non-zero); every later row's initial quantity is
the immediately preceding partition row's quantity and satisfies
`final − initial = entries − exits` with `entries = max(delta, 0)`,
`exits = max(−delta, 0)`. -/
theorem transform_estoque_delta_amended :
    (∀ (rows : List RawEstoque) (produtos : Option (List RawProduto))
      (now : Int) (f : FactEstoque), f ∈ transform_estoque rows produtos now →
      (f.quantidade_inicial = 0 ∧ f.entrada = 0 ∧ f.saida = 0) ∨
        f.quantidade_final - f.quantidade_inicial = f.entrada - f.saida) ∧
    (∀ (rows : List RawEstoque) (produtos : Option (List RawProduto))
      (now : Int) (key : Int × Int),
      (∀ ps, produtos = some ps → (ps.map (fun p => p.id)).Nodup) →
      ((transform_estoque rows produtos now).filter
          (fun f => decide ((f.id_loja, f.id_produto) = key))).map
        estoque_quantities =
      delta_spec none
        ((rows.filter (fun r => decide (estoque_key r = key))).map
          (fun r => r.quantity))) := by
  constructor
  · intro rows produtos now f hf
    rcases produtos with _ | ps
    · unfold transform_estoque at hf
      dsimp only at hf
      obtain ⟨pc, -, rfl⟩ := List.mem_map.mp hf
      rcases pc with ⟨⟨r, _ | q0⟩, c⟩
      · exact Or.inl ⟨rfl, rfl, rfl⟩
      · refine Or.inr ?_
        simp only [estoque_row, Option.map_some', Option.getD_some]
        split <;> split <;> omega
    · unfold transform_estoque at hf
      dsimp only at hf
      obtain ⟨pc, -, rfl⟩ := List.mem_map.mp hf
      rcases pc with ⟨⟨r, _ | q0⟩, c⟩
      · exact Or.inl ⟨rfl, rfl, rfl⟩
      · refine Or.inr ?_
        simp only [estoque_row, Option.map_some', Option.getD_some]
        split <;> split <;> omega
  · intro rows produtos now key hp
    have hrw := filter_map_map_congr
      (fun p : RawEstoque × Option Int =>
        estoque_row p.1 p.2 (estoque_cost_source produtos p.1.product_id) now)
      (fun f : FactEstoque => decide ((f.id_loja, f.id_produto) = key))
      estoque_quantities
      (fun p : RawEstoque × Option Int => decide (estoque_key p.1 = key))
      estoque_metrics
      (shift_over [] rows)
      (fun a => rfl)
      (fun a => by rcases a with ⟨r, _ | q0⟩ <;> rfl)
    rw [transform_estoque_eq_map rows produtos now hp, hrw,
      shift_over_filter key rows []]
    rfl

/-- C2 witness: the amended per-partition law at the concrete two-reading
partition of the counterexample. -/
theorem transform_estoque_delta_amended_witness :
    ((transform_estoque [exEstoque1, exEstoque2] none 0).filter
        (fun f => decide ((f.id_loja, f.id_produto) = ((10 : Int), (20 : Int))))).map
      estoque_quantities =
    delta_spec none
      (([exEstoque1, exEstoque2].filter
          (fun r => decide (estoque_key r = ((10 : Int), (20 : Int))))).map
        (fun r => r.quantity)) ∧
    (transform_estoque [exEstoque1, exEstoque2] none 0).map estoque_quantities =
      [(0, 5, 0, 0), (5, 3, 0, 2)] := by
  refine ⟨transform_estoque_delta_amended.2 [exEstoque1, exEstoque2] none 0
    ((10 : Int), (20 : Int)) (fun ps h => by cases h), by decide⟩

/-! ## Calendar facts: YYYYMMDD is strictly increasing in the day number

The year-of-era extraction of `civilFromDays` is verified against a
400-entry endpoint table (`decide`) combined with monotonicity; the
month/day stage against a 366-entry table; the `Int` pipeline is then
bridged to these `Nat` stages era by era. -/

theorem sub_div_mono_1460 {a b : Nat} (h : a ≤ b) : a - a / 1460 ≤ b - b / 1460 := by omega

theorem sub_div_mono_4 {a b : Nat} (h : a ≤ b) : a - a / 4 ≤ b - b / 4 := by omega

theorem num_eq (n : Nat) : n - n / 1460 + n / 36524 - n / 146096 =
    (n - n / 1460) + (n / 36524 - n / 36524 / 4) := by
  have h : n / 36524 / 4 = n / 146096 := by
    rw [Nat.div_div_eq_div_mul]
  omega

theorem extractN_mono {a b : Nat} (h : a ≤ b) : extractN a ≤ extractN b := by
  unfold extractN
  rw [num_eq, num_eq]
  have h1 := sub_div_mono_1460 h
  have h2 := sub_div_mono_4 (Nat.div_le_div_right (c := 36524) h)
  exact Nat.div_le_div_right (by omega)

theorem startN_mono {a b : Nat} (h : a ≤ b) : startN a ≤ startN b := by
  unfold startN
  have h4 : a / 4 ≤ b / 4 := Nat.div_le_div_right h
  have h100 : a / 100 ≤ b / 100 := Nat.div_le_div_right h
  have hd : b / 100 ≤ a / 100 + (b - a) := by omega
  omega

theorem startN_gap_ub (y : Nat) : startN (y + 1) ≤ startN y + 366 := by
  unfold startN
  omega

theorem startN_gap_lb (y : Nat) : startN y + 365 ≤ startN (y + 1) := by
  unfold startN
  omega

set_option maxRecDepth 10000 in
theorem endpoint_table : ∀ y, y < 400 →
    (extractN (startN y) = y ∧ (1 ≤ y → extractN (startN y - 1) = y - 1)) := by
  decide

theorem extract_top : extractN 146096 = 399 := by decide

theorem extractN_bounds {doe : Nat} (h : doe ≤ 146096) :
    startN (extractN doe) ≤ doe ∧ doe ≤ startN (extractN doe) + 365 ∧
      extractN doe ≤ 399 := by
  have htop : extractN doe ≤ 399 := by
    have := extractN_mono h
    rw [extract_top] at this
    exact this
  refine ⟨?_, ?_, htop⟩
  · by_contra hlt
    push_neg at hlt
    have h1 : 1 ≤ extractN doe := by
      by_contra h0
      push_neg at h0
      interval_cases he : extractN doe
      · simp [startN] at hlt
    have h2 : doe ≤ startN (extractN doe) - 1 := by omega
    have h3 := extractN_mono h2
    have h4 := (endpoint_table (extractN doe) (by omega)).2 h1
    omega
  · rcases Nat.lt_or_ge (extractN doe) 399 with hy | hy
    · by_contra hgt
      push_neg at hgt
      have h2 : startN (extractN doe + 1) ≤ doe := by
        have := startN_gap_ub (extractN doe)
        omega
      have h3 := extractN_mono h2
      have h4 := (endpoint_table (extractN doe + 1) (by omega)).1
      omega
    · have h399 : extractN doe = 399 := by omega
      have hs : startN 399 = 145731 := by decide
      rw [h399, hs]
      omega

theorem extractN_succ {doe : Nat} (h : doe ≤ 146095) :
    (extractN (doe + 1) = extractN doe ∧
      doe + 1 - startN (extractN doe) = (doe - startN (extractN doe)) + 1) ∨
    (extractN (doe + 1) = extractN doe + 1 ∧ doe + 1 = startN (extractN doe + 1)) := by
  have hb := @extractN_bounds doe (by omega)
  have hb1 := @extractN_bounds (doe + 1) (by omega)
  have hmono := extractN_mono (show doe ≤ doe + 1 by omega)
  have hstep : extractN (doe + 1) ≤ extractN doe + 1 := by
    by_contra hgt
    push_neg at hgt
    have h2 : startN (extractN doe + 1 + 1) ≤ startN (extractN (doe + 1)) :=
      startN_mono (by omega)
    have g1 := startN_gap_lb (extractN doe)
    have g2 := startN_gap_lb (extractN doe + 1)
    omega
  rcases Nat.lt_or_ge (extractN (doe + 1)) (extractN doe + 1) with hsame | hup
  · have he : extractN (doe + 1) = extractN doe := by omega
    exact Or.inl ⟨he, by omega⟩
  · have he : extractN (doe + 1) = extractN doe + 1 := by omega
    refine Or.inr ⟨he, ?_⟩
    have hlow : startN (extractN doe + 1) ≤ doe + 1 := by
      have := hb1.1
      rw [he] at this
      exact this
    have hhigh : doe + 1 ≤ startN (extractN doe + 1) := by
      by_contra hgt
      push_neg at hgt
      have h2 : startN (extractN doe + 1) ≤ doe := by omega
      have h3 := extractN_mono h2
      have h4 := (endpoint_table (extractN doe + 1) (by omega)).1
      omega
    omega

set_option maxRecDepth 10000 in
theorem tail_table : ∀ doy, doy < 366 →
    ((153 * mpN doy + 2) / 5 ≤ doy ∧ 1 ≤ mN doy ∧ mN doy ≤ 12 ∧
      1 ≤ dN doy ∧ dN doy ≤ 31 ∧ 301 ≤ tailN doy ∧ tailN doy ≤ 10229 ∧
      (doy ≤ 364 → tailN doy < tailN (doy + 1))) := by
  decide

theorem innerN_bounds {doe : Nat} (h : doe ≤ 146096) :
    301 ≤ innerN doe ∧ innerN doe ≤ 4000229 := by
  have hb := extractN_bounds h
  have hdoy : doyN doe ≤ 365 := by
    unfold doyN
    omega
  have ht := tail_table (doyN doe) (by omega)
  unfold innerN
  omega

theorem innerN_succ {doe : Nat} (h : doe ≤ 146095) :
    innerN doe < innerN (doe + 1) := by
  have hb := @extractN_bounds doe (by omega)
  have hb1 := @extractN_bounds (doe + 1) (by omega)
  have ht := tail_table (doyN doe) (by unfold doyN; omega)
  rcases extractN_succ h with ⟨he, hdoy⟩ | ⟨he, hstart⟩
  · have hdoy1 : doyN (doe + 1) = doyN doe + 1 := by
      unfold doyN
      rw [he]
      omega
    have hle : doyN doe ≤ 364 := by
      unfold doyN at hdoy1 ⊢
      rw [he] at hb1
      omega
    have hmono := ht.2.2.2.2.2.2.2 hle
    unfold innerN
    rw [he, hdoy1]
    omega
  · have hdoy1 : doyN (doe + 1) = 0 := by
      unfold doyN
      rw [he, ← hstart]
      omega
    have h0 : tailN 0 = 301 := by decide
    unfold innerN
    rw [he, hdoy1, h0]
    omega

set_option maxHeartbeats 1000000 in
theorem yyyymmdd_eq_inner (z : Int) :
    yyyymmddOfDay z =
      (z + 719468) / 146097 * 4000000 + innerN ((z + 719468) % 146097).toNat := by
  have hn : ((((z + 719468) % 146097).toNat : Nat) : Int) = (z + 719468) % 146097 :=
    Int.toNat_of_nonneg (Int.emod_nonneg _ (by norm_num))
  have hlt : (z + 719468) % 146097 < 146097 := Int.emod_lt_of_pos _ (by norm_num)
  have hnb : ((z + 719468) % 146097).toNat ≤ 146096 := by omega
  unfold yyyymmddOfDay civilFromDays
  simp only
  set n := ((z + 719468) % 146097).toNat with hndef
  set doeI := (z + 719468) % 146097 with hdoe
  set eraI := (z + 719468) / 146097 with hera
  have hb := @extractN_bounds n hnb
  have hdoyb : doyN n < 366 := by
    unfold doyN
    omega
  have ht := tail_table (doyN n) hdoyb
  have hyoe : (doeI - doeI / 1460 + doeI / 36524 - doeI / 146096) / 365 =
      ((extractN n : Nat) : Int) := by
    unfold extractN
    omega
  rw [hyoe]
  have hdoy : doeI - (365 * ((extractN n : Nat) : Int) +
      ((extractN n : Nat) : Int) / 4 - ((extractN n : Nat) : Int) / 100) =
      ((doyN n : Nat) : Int) := by
    unfold doyN startN at *
    omega
  rw [hdoy]
  have hmp : (5 * ((doyN n : Nat) : Int) + 2) / 153 =
      ((mpN (doyN n) : Nat) : Int) := by
    unfold mpN
    omega
  rw [hmp]
  have hd : ((doyN n : Nat) : Int) - (153 * ((mpN (doyN n) : Nat) : Int) + 2) / 5 + 1 =
      ((dN (doyN n) : Nat) : Int) := by
    unfold dN mpN at *
    omega
  rw [hd]
  unfold innerN tailN mN
  by_cases hc : mpN (doyN n) < 10
  · rw [if_pos hc, if_pos (show ((mpN (doyN n) : Nat) : Int) < 10 by omega)]
    rw [if_neg (show ¬(((mpN (doyN n) : Nat) : Int) + 3 ≤ 2) by omega),
      if_neg (show ¬(mpN (doyN n) + 3 ≤ 2) by omega)]
    push_cast
    ring
  · rw [if_neg hc, if_neg (show ¬(((mpN (doyN n) : Nat) : Int) < 10) by omega)]
    by_cases hc2 : mpN (doyN n) ≤ 11
    · rw [if_pos (show ((mpN (doyN n) : Nat) : Int) - 9 ≤ 2 by omega),
        if_pos (show mpN (doyN n) - 9 ≤ 2 by omega)]
      omega
    · rw [if_neg (show ¬(((mpN (doyN n) : Nat) : Int) - 9 ≤ 2) by omega),
        if_neg (show ¬(mpN (doyN n) - 9 ≤ 2) by omega)]
      omega

theorem yyyymmdd_succ (z : Int) : yyyymmddOfDay z < yyyymmddOfDay (z + 1) := by
  have h1 := yyyymmdd_eq_inner z
  have h2 := yyyymmdd_eq_inner (z + 1)
  have hge : 0 ≤ (z + 719468) % 146097 := Int.emod_nonneg _ (by norm_num)
  have hlt : (z + 719468) % 146097 < 146097 := Int.emod_lt_of_pos _ (by norm_num)
  by_cases hc : (z + 719468) % 146097 = 146096
  · have hsplit : (z + 1 + 719468) / 146097 = (z + 719468) / 146097 + 1 ∧
        (z + 1 + 719468) % 146097 = 0 := by omega
    have hb := @innerN_bounds ((z + 719468) % 146097).toNat (by omega)
    have h0 : innerN 0 = 301 := by decide
    rw [h1, h2, hsplit.1, hsplit.2, Int.toNat_zero, h0]
    omega
  · have hsplit : (z + 1 + 719468) / 146097 = (z + 719468) / 146097 ∧
        (z + 1 + 719468) % 146097 = (z + 719468) % 146097 + 1 := by omega
    have hmono := @innerN_succ ((z + 719468) % 146097).toNat (by omega)
    have htn : ((z + 719468) % 146097 + 1).toNat = ((z + 719468) % 146097).toNat + 1 := by
      omega
    rw [h1, h2, hsplit.1, hsplit.2, htn]
    omega

theorem yyyymmdd_strictMono : StrictMono yyyymmddOfDay :=
  strictMono_int_of_lt_succ yyyymmdd_succ

/-! ## C7 — the synthetic calendar dimension -/

/-- The closed form of `datetime_range` satisfies the generator loop's
unfolding law: emit `start` and continue one day later while within the
range. -/
theorem datetime_range_step (start stop : Int) :
    datetime_range start stop =
      if start ≤ stop then start :: datetime_range (start + dayMinutes) stop
      else [] := by
  by_cases h : start ≤ stop
  · rw [if_pos h]
    by_cases h2 : start + dayMinutes ≤ stop
    · have hn : ((stop - start) / dayMinutes).toNat =
          ((stop - (start + dayMinutes)) / dayMinutes).toNat + 1 := by
        simp only [dayMinutes] at *
        omega
      unfold datetime_range
      rw [if_pos h, if_pos h2, hn, List.range_succ_eq_map, List.map_cons,
        List.map_map]
      congr 1
      · simp
      · exact List.map_congr_left (fun k _ => by
          simp only [Function.comp_apply]
          push_cast
          ring)
    · have hn : ((stop - start) / dayMinutes).toNat = 0 := by
        simp only [dayMinutes] at *
        omega
      unfold datetime_range
      rw [if_pos h, if_neg h2, hn]
      have h1 : List.range 1 = [0] := rfl
      rw [h1]
      simp
  · unfold datetime_range
    rw [if_neg h, if_neg h]

/-- C7 counterexample: for the scanned range 2023-01-01 12:00 to
2023-01-02 06:00 (min ≤ max), the calendar dimension has
`(max − min).days + 1 = 1` row, for day 2023-01-01 only — the calendar day
2023-01-02 of the closed range gets NO row, refuting "one row per calendar
day of the closed range". -/
theorem transform_tempo_counterexample :
    cexTempoMin ≤ cexTempoMax ∧
    dayOfInstant cexTempoMax = 19359 ∧
    ((cexTempoMax - cexTempoMin) / dayMinutes).toNat + 1 = 1 ∧
    (transform_tempo cexTempoMin cexTempoMax).map (fun r => r.data_completa) =
      [19358] ∧
    (∀ row ∈ transform_tempo cexTempoMin cexTempoMax,
      row.data_completa ≠ dayOfInstant cexTempoMax) := by
  refine ⟨by decide, by decide, by decide, by decide, by decide⟩

/-- C7 (amended): for a scanned range `[min, max]` with `min ≤ max`, the
calendar dimension has exactly `(max − min).days + 1` rows, one per
calendar day of `[date(min), date(min) + (max − min).days]` in order; each
row's `id_tempo` equals its date formatted as YYYYMMDD and all `id_tempo`
values are distinct. The covered days are the full closed range
`[date(min), date(max)]` only when `date(min) + (max − min).days` reaches
`date(max)`; when max's time-of-day is earlier than min's it stops one
calendar day short, leaving `date(max)` without a row. -/
theorem transform_tempo_calendar :
    ∀ min_date max_date : Int, min_date ≤ max_date →
      (transform_tempo min_date max_date).length =
        ((max_date - min_date) / dayMinutes).toNat + 1 ∧
      (transform_tempo min_date max_date).map (fun r => r.data_completa) =
        (List.range (((max_date - min_date) / dayMinutes).toNat + 1)).map
          (fun k : Nat => dayOfInstant min_date + (k : Int)) ∧
      (∀ row ∈ transform_tempo min_date max_date,
        row.id_tempo = yyyymmddOfDay row.data_completa) ∧
      ((transform_tempo min_date max_date).map (fun r => r.id_tempo)).Nodup ∧
      (dayOfInstant min_date + ((max_date - min_date) / dayMinutes).toNat =
          dayOfInstant max_date ∨
        dayOfInstant min_date + ((max_date - min_date) / dayMinutes).toNat =
          dayOfInstant max_date - 1) := by
  intro min_date max_date h
  have hday : ∀ k : Nat,
      dayOfInstant (min_date + dayMinutes * k) = dayOfInstant min_date + k := by
    intro k
    unfold dayOfInstant dayMinutes
    omega
  have hrange : transform_tempo min_date max_date =
      (List.range (((max_date - min_date) / dayMinutes).toNat + 1)).map
        (fun k : Nat => mkDimTempo (dayOfInstant min_date + (k : Int))) := by
    unfold transform_tempo datetime_range
    rw [if_pos h, List.map_map]
    exact List.map_congr_left (fun k _ => by
      simp only [Function.comp_apply, hday k])
  refine ⟨?_, ?_, ?_, ?_, ?_⟩
  · rw [hrange, List.length_map, List.length_range]
  · rw [hrange, List.map_map]
    exact List.map_congr_left (fun k _ => rfl)
  · intro row hrow
    rw [hrange] at hrow
    obtain ⟨k, -, rfl⟩ := List.mem_map.mp hrow
    rfl
  · rw [hrange, List.map_map]
    refine List.Nodup.map ?_ (List.nodup_range _)
    intro a b hab
    simp only [Function.comp_apply] at hab
    have hab' : yyyymmddOfDay (dayOfInstant min_date + a) =
        yyyymmddOfDay (dayOfInstant min_date + b) := hab
    have := yyyymmdd_strictMono.injective hab'
    omega
  · unfold dayOfInstant dayMinutes
    omega

/-- C7 witness: the amended law at the concrete range
[1970-01-01 00:00, 1970-01-03 01:40]: three rows, consecutive days, unique
YYYYMMDD keys. -/
theorem transform_tempo_calendar_witness :
    (transform_tempo 0 2980).length = 3 ∧
    (transform_tempo 0 2980).map (fun r => r.data_completa) = [0, 1, 2] ∧
    ((transform_tempo 0 2980).map (fun r => r.id_tempo)).Nodup := by
  have h := transform_tempo_calendar 0 2980 (by decide)
  exact ⟨h.1.trans (by decide), h.2.1.trans (by decide), h.2.2.2.1⟩

end SyStock
